import Mathlib

/-!
Verification of the workflow-orchestration notebook
(`Module 5 - Machine Learning Operations (MLOPs)/4. Orchestrate ML Pipeline/
workflow_orchestration.ipynb`).

The notebook wraps a linear KNN training script (load → split inputs/output →
train/test split → scale → train → evaluate) in Prefect `@task`/`@flow`
decorators.  The work units are shallowly embedded here over exact rational
arithmetic; the orchestration engine (task states, retries, skipping) and the
cron scheduler are not part of the repository's source, so they are modelled
from the specification where a claim needs them.
-/

namespace WorkflowOrch

/-! ## Data model

A data frame cell is either a number or a string (the iris features are
numeric, the `Species` label is a string).  A row is an association list from
column name to cell; pandas column selection that misses a column, or finds a
non-numeric cell where a number is required, is surfaced as `none`. -/

inductive Val where
  | num (q : ℚ)
  | str (s : String)
deriving DecidableEq, Repr

abbrev DRow := List (String × Val)
abbrev DataFrame := List DRow

def lookupCol (r : DRow) (c : String) : Option Val :=
  (r.find? (fun kv => kv.1 == c)).map (fun kv => kv.2)

def Val.asNum : Val → Option ℚ
  | .num q => some q
  | .str _ => none

def Val.asStr : Val → Option String
  | .num _ => none
  | .str s => some s

/-- The external file system seen by `pd.read_csv`: a map from path to the
parsed data frame (`none` when the file is missing or unreadable). -/
abbrev FileSystem := String → Option DataFrame

/-! ## Work units, embedded from the notebook's `@task` definitions -/

/-- `load_data(file_path)`: `return pd.read_csv(file_path)`. -/
def load_data (fs : FileSystem) (file_path : String) : Option DataFrame :=
  fs file_path

/-- `split_inputs_output(data, inputs, output)`:
`X = data[inputs]; y = data[output]; return X, y`.
Feature extraction requires every `inputs` column to hold a number and the
`output` column to hold a string on every row; any miss is a unit failure. -/
def split_inputs_output (data : DataFrame) (inputs : List String) (output : String) :
    Option (List (List ℚ) × List String) := do
  let X ← data.mapM (fun r => inputs.mapM (fun c => (lookupCol r c).bind Val.asNum))
  let y ← data.mapM (fun r => (lookupCol r output).bind Val.asStr)
  return (X, y)

/-! ### Model of `sklearn.model_selection.train_test_split`

`train_test_split` shuffles the indices with a PRNG seeded by `random_state`
and takes the first `ceil(test_size * n)` shuffled indices as the test set and
the rest as the training set.  The exact numpy Mersenne-Twister stream is
modelled by a deterministic linear-congruential draw: every claim below
depends only on the shuffle being a pure function of `(random_state, n)` and
on the test-fraction arithmetic, not on the specific permutation. -/

def lcgNext (s : Nat) : Nat := (1103515245 * s + 12345) % 2147483648

def permuteAux : Nat → Nat → List Nat → List Nat
  | 0, _, _ => []
  | fuel + 1, s, pool =>
    if pool.isEmpty then []
    else
      let i := s % pool.length
      pool.getD i 0 :: permuteAux fuel (lcgNext s) (pool.eraseIdx i)

/-- Deterministic permutation of `[0, …, n-1]` driven by `seed`. -/
def permutation (seed n : Nat) : List Nat :=
  permuteAux n (lcgNext seed) (List.range n)

def pickIdx {α : Type} (xs : List α) (idx : List Nat) : List α :=
  idx.filterMap (fun i => xs.get? i)

def train_test_split {α β : Type} (X : List α) (y : List β)
    (test_size : ℚ) (random_state : Nat) :
    List α × List α × List β × List β :=
  let n := X.length
  let n_test := (test_size * n).ceil.toNat
  let idx := permutation random_state n
  let testIdx := idx.take n_test
  let trainIdx := idx.drop n_test
  (pickIdx X trainIdx, pickIdx X testIdx, pickIdx y trainIdx, pickIdx y testIdx)

/-- `split_train_test(X, y, test_size=0.25, random_state=0)`: the two trailing
Python default arguments are modelled as `Option` parameters; a caller that
omits them passes `none` and gets the declared defaults `0.25` and `0`. -/
def split_train_test {α β : Type} (X : List α) (y : List β)
    (test_size : Option ℚ) (random_state : Option Nat) :
    List α × List α × List β × List β :=
  train_test_split X y (test_size.getD (1/4)) (random_state.getD 0)

/-! ### Model of `sklearn.preprocessing.MinMaxScaler`

`fit` records each column's minimum and its range over the fitted matrix
(ranges of zero are replaced by 1, as sklearn's `_handle_zeros_in_scale`
does); `transform` maps each cell `x` of column `j` to
`(x - min_j) / range_j`. -/

structure Scaler where
  mins : List ℚ
  ranges : List ℚ
deriving DecidableEq, Repr

def colVals (X : List (List ℚ)) (j : Nat) : List ℚ :=
  X.filterMap (fun r => r.get? j)

def colMin (X : List (List ℚ)) (j : Nat) : ℚ :=
  match colVals X j with
  | [] => 0
  | a :: rest => rest.foldl min a

def colMax (X : List (List ℚ)) (j : Nat) : ℚ :=
  match colVals X j with
  | [] => 0
  | a :: rest => rest.foldl max a

def nCols (X : List (List ℚ)) : Nat := (X.headD []).length

def MinMaxScaler_fit (X : List (List ℚ)) : Scaler :=
  let lows := (List.range (nCols X)).map (colMin X)
  let highs := (List.range (nCols X)).map (colMax X)
  ⟨lows, List.zipWith (fun lo hi => if hi - lo = 0 then 1 else hi - lo) lows highs⟩

def Scaler.transform (s : Scaler) (X : List (List ℚ)) : List (List ℚ) :=
  X.map (fun r => List.zipWith (fun x lr => (x - lr.1) / lr.2) r (s.mins.zip s.ranges))

/-- `preprocess_data(X_train, X_test, y_train, y_test)`:
`scaler = MinMaxScaler(); X_train_scaled = scaler.fit_transform(X_train);
X_test_scaled = scaler.transform(X_test); return X_train_scaled,
X_test_scaled, y_train, y_test` — `fit_transform` is fit-on-`X_train`
followed by transform. -/
def preprocess_data (X_train X_test : List (List ℚ)) (y_train y_test : List String) :
    List (List ℚ) × List (List ℚ) × List String × List String :=
  let scaler := MinMaxScaler_fit X_train
  (scaler.transform X_train, scaler.transform X_test, y_train, y_test)

/-! ### Model of `sklearn.neighbors.KNeighborsClassifier`

`fit` on a KNN classifier stores the training matrix and labels together with
the hyperparameters; `predict` votes among the `n_neighbors` nearest stored
points.  Distances are compared through the `p`-th power of the Minkowski
metric, which orders points identically to the metric itself. -/

structure KNNModel where
  n_neighbors : Nat
  p : Nat
  X_fit : List (List ℚ)
  y_fit : List String
deriving DecidableEq, Repr

/-- `train_model(X_train_scaled, y_train, hyperparameters)` with
`hyperparameters = {'n_neighbors': …, 'p': …}`:
`clf = KNeighborsClassifier(**hyperparameters); clf.fit(X_train_scaled,
y_train); return clf`. -/
def train_model (X_train_scaled : List (List ℚ)) (y_train : List String)
    (hyperparameters : Nat × Nat) : KNNModel :=
  ⟨hyperparameters.1, hyperparameters.2, X_train_scaled, y_train⟩

def minkowskiPow (p : Nat) (a b : List ℚ) : ℚ :=
  (List.zipWith (fun x y => |x - y| ^ p) a b).sum

/-- Stable insertion by distance: ties keep the training-set order, matching
sklearn's index-order tie behaviour. -/
def insertByDist (a : ℚ × String) : List (ℚ × String) → List (ℚ × String)
  | [] => [a]
  | b :: bs => if a.1 < b.1 then a :: b :: bs else b :: insertByDist a bs

def sortByDist (l : List (ℚ × String)) : List (ℚ × String) :=
  l.foldr insertByDist []

def majorityLabel (ls : List String) : String :=
  (ls.foldl
    (fun best l =>
      match best with
      | none => some (l, ls.count l)
      | some bl => if ls.count l > bl.2 then some (l, ls.count l) else some bl)
    none).elim "" (fun bl => bl.1)

def KNNModel.predict (m : KNNModel) (x : List ℚ) : String :=
  let ds := (m.X_fit.zip m.y_fit).map (fun xy => (minkowskiPow m.p xy.1 x, xy.2))
  majorityLabel (((sortByDist ds).take m.n_neighbors).map (fun d => d.2))

/-! ### `evaluate_model` and accuracy -/

/-- Model of `sklearn.metrics.accuracy_score`: the fraction of positions where
prediction and truth agree. -/
def accuracy_score (y_true y_pred : List String) : ℚ :=
  (((y_true.zip y_pred).countP (fun ab => ab.1 == ab.2) : ℚ)) / y_true.length

/-- `evaluate_model(model, X_train_scaled, y_train, X_test_scaled, y_test)`:
predicts on both sets and returns `(train_score, test_score)`. -/
def evaluate_model (model : KNNModel) (X_train_scaled : List (List ℚ))
    (y_train : List String) (X_test_scaled : List (List ℚ)) (y_test : List String) :
    ℚ × ℚ :=
  let y_train_pred := X_train_scaled.map model.predict
  let y_test_pred := X_test_scaled.map model.predict
  (accuracy_score y_train y_train_pred, accuracy_score y_test y_test_pred)

/-! ## The flows

The notebook defines the pipeline twice: a plain `workflow(data_path)` and a
Prefect `@flow(name="KNN Training Flow") workflow()` with no parameters.  Both
bodies fix the same constant bindings, except that the plain version takes the
data path as its argument while the flow hard-codes it. -/

def DATA_PATH : String := "data/iris.csv"

def INPUTS : List String :=
  ["SepalLengthCm", "SepalWidthCm", "PetalLengthCm", "PetalWidthCm"]

def OUTPUT : String := "Species"

/-- `HYPERPARAMETERS = {'n_neighbors': 3, 'p': 2}` as `(n_neighbors, p)`. -/
def HYPERPARAMETERS : Nat × Nat := (3, 2)

/-- The constant block at the top of a workflow body. -/
structure Bindings where
  data_path : String
  inputs : List String
  output : String
  n_neighbors : Nat
  p : Nat
deriving DecidableEq, Repr

/-- Bindings of the plain `workflow(data_path)` (`DATA_PATH = data_path`). -/
def workflow_plain_bindings (data_path : String) : Bindings :=
  ⟨data_path, INPUTS, OUTPUT, HYPERPARAMETERS.1, HYPERPARAMETERS.2⟩

/-- Bindings of the Prefect `@flow` `workflow()` (`DATA_PATH = "data/iris.csv"`). -/
def workflow_flow_bindings : Bindings :=
  ⟨DATA_PATH, INPUTS, OUTPUT, HYPERPARAMETERS.1, HYPERPARAMETERS.2⟩

/-! ### Data flow of the flow body

The successive `let`-bindings of `workflow()`, with each unit's failure
propagated: a step produces `none` when the unit it invokes fails and every
downstream step is then skipped. -/

def workflow_iris (fs : FileSystem) : Option DataFrame :=
  load_data fs DATA_PATH

def workflow_Xy (fs : FileSystem) : Option (List (List ℚ) × List String) :=
  (workflow_iris fs).bind (fun d => split_inputs_output d INPUTS OUTPUT)

def workflow_split (fs : FileSystem) :
    Option (List (List ℚ) × List (List ℚ) × List String × List String) :=
  (workflow_Xy fs).map (fun Xy => split_train_test Xy.1 Xy.2 none none)

def workflow_prep (fs : FileSystem) :
    Option (List (List ℚ) × List (List ℚ) × List String × List String) :=
  (workflow_split fs).map (fun s => preprocess_data s.1 s.2.1 s.2.2.1 s.2.2.2)

def workflow_model (fs : FileSystem) : Option KNNModel :=
  (workflow_prep fs).map (fun s => train_model s.1 s.2.2.1 HYPERPARAMETERS)

/-- The value the flow reports: `(train_score, test_score)` from
`evaluate_model(model, X_train_scaled, y_train, X_test_scaled, y_test)`. -/
def workflowBody (fs : FileSystem) : Option (ℚ × ℚ) :=
  (workflow_prep fs).map
    (fun s =>
      evaluate_model (train_model s.1 s.2.2.1 HYPERPARAMETERS) s.1 s.2.2.1 s.2.1 s.2.2.2)

/-! ### Static trace of the flow body

Reading the body of `workflow()` top to bottom yields, in order, six unit
invocations and two `print` statements.  Each invocation lists the indices of
the earlier invocations whose outputs appear among its arguments (all other
arguments are literal constants):
0 `load_data(DATA_PATH)`,
1 `split_inputs_output(iris, INPUTS, OUTPUT)` — `iris` from 0,
2 `split_train_test(X, y)` — `X, y` from 1,
3 `preprocess_data(X_train, X_test, y_train, y_test)` — all four from 2,
4 `train_model(X_train_scaled, y_train, HYPERPARAMETERS)` — both data
  arguments from 3,
5 `evaluate_model(model, X_train_scaled, y_train, X_test_scaled, y_test)` —
  `model` from 4, the rest from 3. -/

inductive FlowAction where
  | invoke (unit : String) (deps : List Nat)
  | printOut (text : String)
deriving DecidableEq, Repr

def workflowActions : List FlowAction :=
  [ .invoke "load_data" [],
    .invoke "split_inputs_output" [0],
    .invoke "split_train_test" [1],
    .invoke "preprocess_data" [2],
    .invoke "train_model" [3],
    .invoke "evaluate_model" [3, 4],
    .printOut "Train Score:",
    .printOut "Test Score:" ]

/-- The unit invocations of the flow body, each with its dependency list. -/
def taskCalls : List (String × List Nat) :=
  workflowActions.filterMap
    (fun a => match a with
      | .invoke u ds => some (u, ds)
      | .printOut _ => none)

/-- Dependency lists of the task invocations, in invocation order. -/
def flowDeps : List (List Nat) := taskCalls.map (fun c => c.2)

/-- The lines the flow body prints, beyond invoking units. -/
def flowPrints : List String :=
  workflowActions.filterMap
    (fun a => match a with
      | .invoke _ _ => none
      | .printOut t => some t)

/-- Running (tracing) the flow body once, applied to the external stdout
state: the unit invocations are not external effects, the prints append
their lines. -/
def traceStdout (stdout : List String) : List String := stdout ++ flowPrints

def traceN : Nat → List String → List String
  | 0, s => s
  | n + 1, s => traceN n (traceStdout s)

/-! ## The orchestration engine

Modelled from the spec: the engine itself (Prefect) is not part of the
repository's source.  Spec §4.3: a TaskRun is dispatched only when every
upstream TaskRun is `Completed`; on failure it retries up to the attempt
limit, then becomes `Failed`; if any upstream ends other than `Completed`
the dependent is marked `Skipped` and never dispatched; the FlowRun is
`Failed` iff any TaskRun is `Failed`, `Completed` iff all are `Completed`. -/

inductive TState where
  | Scheduled
  | Running
  | Retrying
  | Completed
  | Failed
  | Skipped
deriving DecidableEq, Repr, BEq

/-- Modelled from the spec: sequential run of a graph whose node `i` depends
on the (strictly earlier) nodes `deps[i]`.  `failures i` is the number of
attempts of unit `i` that fail before it would succeed; node `i` completes
iff it is dispatched and succeeds within `maxAttempts i` attempts. -/
def runGraph (deps : List (List Nat)) (failures maxAttempts : Nat → Nat) :
    List TState :=
  deps.foldl
    (fun acc ds =>
      acc ++
        [if ds.all (fun d => acc.getD d .Failed == .Completed) then
           if failures acc.length < maxAttempts acc.length then .Completed
           else .Failed
         else .Skipped])
    []

/-- Modelled from the spec: node `i` is dispatched (ever enters `Running`)
iff all its dependencies ended `Completed`. -/
def dispatched (deps : List (List Nat)) (failures maxAttempts : Nat → Nat) :
    List Bool :=
  let states := runGraph deps failures maxAttempts
  deps.map (fun ds => ds.all (fun d => states.getD d .Failed == .Completed))

/-- Modelled from the spec: attempts consumed by a dispatched node — one more
than its failure count when it eventually succeeds, the full budget when it
exhausts its retries. -/
def attemptsUsed (failures maxAttempts : Nat → Nat) (i : Nat) : Nat :=
  min (failures i + 1) (maxAttempts i)

/-- Modelled from the spec (§3 invariant): the FlowRun state summarizing the
TaskRun states. -/
def flowState (states : List TState) : TState :=
  if states.any (fun s => s == .Failed) then .Failed
  else if states.all (fun s => s == .Completed) then .Completed
  else .Running

/-- The spec's 5-node scenario chain `load→split→scale→train→evaluate`. -/
def chain5 : List (List Nat) := [[], [0], [1], [2], [3]]

/-- Failure profile of the spec's `split`-fails scenario: the `split` node
(index 1) fails `fsplit` times in a row, every other unit succeeds at once. -/
def splitFailureProfile (fsplit : Nat) : Nat → Nat :=
  fun i => if i = 1 then fsplit else 0

/-! ## The cron scheduler

Modelled from the spec: the scheduler (Prefect's `serve`/`deploy` with a
`cron` argument, shown only as usage in the notebook) computes the next fire
time from a five-field cron expression — minute, hour, day-of-month, month,
day-of-week — where day-of-week values 0 and 7 both denote Sunday.  The wall
clock is modelled at minute granularity over a non-leap calendar year. -/

inductive CronField where
  | star
  | fieldVal (n : Nat)
deriving DecidableEq, Repr

structure Cron where
  minute : CronField
  hour : CronField
  dom : CronField
  month : CronField
  dow : CronField
deriving DecidableEq, Repr

/-- Split a character list on spaces (the five cron fields are separated by
single spaces). -/
def splitOnSpace : List Char → List (List Char)
  | [] => [[]]
  | c :: cs =>
    let r := splitOnSpace cs
    if c == ' ' then [] :: r
    else
      match r with
      | [] => [[c]]
      | t :: ts => (c :: t) :: ts

def digitVal (c : Char) : Option Nat :=
  if '0' ≤ c ∧ c ≤ '9' then some (c.toNat - 48) else none

def tokenToNatAux : List Char → Nat → Option Nat
  | [], acc => some acc
  | c :: cs, acc => (digitVal c).bind (fun d => tokenToNatAux cs (acc * 10 + d))

def tokenToNat : List Char → Option Nat
  | [] => none
  | c :: cs => tokenToNatAux (c :: cs) 0

def parseCronField (cs : List Char) : Option CronField :=
  if cs == ['*'] then some .star else (tokenToNat cs).map .fieldVal

/-- Parse a five-field cron expression such as `"0 1 * * *"`. -/
def parseCron (s : String) : Option Cron :=
  match (splitOnSpace s.data).mapM parseCronField with
  | some [mi, h, d, mo, w] => some ⟨mi, h, d, mo, w⟩
  | _ => none

/-- A wall-clock instant at minute granularity.  `dow` is 0–6 with 0 =
Sunday. -/
structure DateTime where
  month : Nat
  day : Nat
  hour : Nat
  minute : Nat
  dow : Nat
deriving DecidableEq, Repr

def daysInMonth (m : Nat) : Nat :=
  if m = 2 then 28
  else if m = 4 ∨ m = 6 ∨ m = 9 ∨ m = 11 then 30
  else 31

def succMinute (t : DateTime) : DateTime :=
  if t.minute + 1 < 60 then { t with minute := t.minute + 1 }
  else if t.hour + 1 < 24 then { t with minute := 0, hour := t.hour + 1 }
  else
    let dow := (t.dow + 1) % 7
    if t.day + 1 ≤ daysInMonth t.month then
      { month := t.month, day := t.day + 1, hour := 0, minute := 0, dow := dow }
    else if t.month + 1 ≤ 12 then
      { month := t.month + 1, day := 1, hour := 0, minute := 0, dow := dow }
    else
      { month := 1, day := 1, hour := 0, minute := 0, dow := dow }

def fieldMatches : CronField → Nat → Bool
  | .star, _ => true
  | .fieldVal v, x => v == x

/-- Day-of-week matching: the field value is reduced mod 7, so 0 and 7 both
denote Sunday (`dow = 0`). -/
def dowMatches : CronField → Nat → Bool
  | .star, _ => true
  | .fieldVal v, x => v % 7 == x

def cronMatches (c : Cron) (t : DateTime) : Bool :=
  fieldMatches c.minute t.minute && fieldMatches c.hour t.hour &&
  fieldMatches c.dom t.day && fieldMatches c.month t.month &&
  dowMatches c.dow t.dow

def nextFireAux (c : Cron) : Nat → DateTime → Option DateTime
  | 0, _ => none
  | fuel + 1, t => if cronMatches c t then some t else nextFireAux c fuel (succMinute t)

/-- Modelled from the spec: the first instant strictly after `t` matching the
cron expression (the fuel of one calendar year of minutes bounds the search;
any satisfiable five-field expression fires within a year). -/
def nextFire (c : Cron) (t : DateTime) : Option DateTime :=
  nextFireAux c 527040 (succMinute t)

/-! ## Supporting definitions and lemmas for the theorems -/

/-- The spec's reading of a reported score: the fraction of predictions that
agree with the corresponding true label. -/
def fractionCorrect (predicted actual : List String) : ℚ :=
  (List.zipWith (fun p a => if p = a then (1 : ℚ) else 0) predicted actual).sum /
    (actual.length : ℚ)

lemma countP_zip_eq_sum_indicator (ys ps : List String) :
    (((ys.zip ps).countP (fun ab => ab.1 == ab.2) : ℚ)) =
      (List.zipWith (fun p a => if p = a then (1 : ℚ) else 0) ps ys).sum := by
  induction ys generalizing ps with
  | nil => simp
  | cons y ys ih =>
    cases ps with
    | nil => simp
    | cons p ps =>
      by_cases h : y = p
      · subst h
        simp [List.countP_cons, ih ps, add_comm]
      · have h2 : p ≠ y := fun hh => h hh.symm
        simp [List.countP_cons, h, h2, ih ps]

lemma traceN_eq_append_prints (n : Nat) : ∀ s, traceN n s =
    s ++ (List.replicate n flowPrints).flatten := by
  induction n with
  | zero => intro s; simp [traceN]
  | succ n ih =>
    intro s
    simp [traceN, traceStdout, ih, List.replicate_succ, List.append_assoc]

/-! ## Claims -/

/-- C1 (counterexample): the claim asserts the demonstrated flow creates
exactly 5 TaskRuns, but the flow body invokes six work units — the
`split_inputs_output` and `split_train_test` steps are separate tasks — so 6
TaskRuns are created, as the notebook's recorded run log also shows. -/
theorem C1_counterexample_six_tasks : ¬ (taskCalls.length = 5) := by decide

/-- C1 (amended): the demonstrated KNN training flow with all work units
succeeding is a 6-node chain (`load_data`, `split_inputs_output`,
`split_train_test`, `preprocess_data`, `train_model`, `evaluate_model`): the
FlowRun ends `Completed`, exactly 6 TaskRuns are created and all end
`Completed`, and the engine reports two numeric scores taken from the final
unit's (`evaluate_model`'s) result. -/
theorem C1_amended_six_node_run :
    runGraph flowDeps (fun _ => 0) (fun _ => 1) = List.replicate 6 .Completed ∧
    taskCalls.length = 6 ∧
    (runGraph flowDeps (fun _ => 0) (fun _ => 1)).length = taskCalls.length ∧
    flowState (runGraph flowDeps (fun _ => 0) (fun _ => 1)) = .Completed ∧
    (∀ fs : FileSystem, workflowBody fs = (workflow_prep fs).map
      (fun s => evaluate_model (train_model s.1 s.2.2.1 HYPERPARAMETERS)
        s.1 s.2.2.1 s.2.1 s.2.2.2)) :=
  ⟨by decide, by decide, by decide, by decide, fun _ => rfl⟩

/-- C2: for every model and every pair of labelled datasets, `evaluate_model`
returns exactly the accuracy of the model's predictions on the training set
paired with the accuracy on the test set, in that order, and the flow's
reported value is the final `evaluate_model` invocation's result. -/
theorem C2_evaluate_reports_two_accuracies :
    (∀ (model : KNNModel) (Xtr : List (List ℚ)) (ytr : List String)
        (Xte : List (List ℚ)) (yte : List String),
      evaluate_model model Xtr ytr Xte yte =
        (fractionCorrect (Xtr.map model.predict) ytr,
         fractionCorrect (Xte.map model.predict) yte)) ∧
    (∀ fs : FileSystem, workflowBody fs = (workflow_prep fs).map
      (fun s => evaluate_model (train_model s.1 s.2.2.1 HYPERPARAMETERS)
        s.1 s.2.2.1 s.2.1 s.2.2.2)) := by
  refine ⟨fun model Xtr ytr Xte yte => ?_, fun _ => rfl⟩
  simp only [evaluate_model, accuracy_score, fractionCorrect,
    countP_zip_eq_sum_indicator]

/-- C3: in the demonstrated flow every task invocation consumes only literal
constants and outputs of strictly earlier invocations, so each dependency of
invocation `i` is an index `d < i`: the induced graph is acyclic and the
flow's sequential (invocation-order) execution is a valid linearization in
which no task runs before any task it depends on. -/
theorem C3_deps_strictly_earlier : ∀ i : Nat, ∀ d ∈ flowDeps.getD i [], d < i := by
  intro i d hd
  by_cases h6 : i < 6
  · interval_cases i <;> simp [flowDeps, taskCalls, workflowActions] at hd <;> omega
  · rw [List.getD_eq_default] at hd
    · simp at hd
    · simp [flowDeps, taskCalls, workflowActions]
      omega

/-- C3 witness: dependency 0 of invocation 1 is strictly earlier. -/
theorem C3_witness : 0 ∈ flowDeps.getD 1 [] ∧ 0 < 1 :=
  ⟨by decide, C3_deps_strictly_earlier 1 0 (by decide)⟩

/-- C4 (counterexample): the flow body is not side-effect free — tracing it
once starting from an empty stdout leaves stdout changed, because the body
ends with two `print` statements. -/
theorem C4_counterexample_prints : ¬ (traceN 1 [] = []) := by decide

/-- C4 (amended): apart from invoking work units, the flow body's only side
effects are the two `print` statements writing the scores; tracing the body
`n` times appends exactly those two lines to stdout each time and changes no
other external state, so the traced unit-invocation structure is identical on
every trace. -/
theorem C4_amended_only_print_effects :
    flowPrints = ["Train Score:", "Test Score:"] ∧
    (∀ (n : Nat) (s : List String),
      traceN n s = s ++ (List.replicate n flowPrints).flatten) :=
  ⟨rfl, traceN_eq_append_prints⟩

/-- C5: every registered work unit is a pure, deterministic computation — for
each task of the demonstrated pipeline, two executions on equal argument
tuples produce equal results.  `split_train_test`'s shuffle is a function of
its explicit `random_state` argument (defaulting to the seed 0) and
`train_model` fits the KNN classifier from its explicit hyperparameters;
neither reads any ambient state. -/
theorem C5_units_deterministic :
    (∀ (fs₁ fs₂ : FileSystem) (p₁ p₂ : String), fs₁ = fs₂ → p₁ = p₂ →
      load_data fs₁ p₁ = load_data fs₂ p₂) ∧
    (∀ (d₁ d₂ : DataFrame) (i₁ i₂ : List String) (o₁ o₂ : String),
      d₁ = d₂ → i₁ = i₂ → o₁ = o₂ →
      split_inputs_output d₁ i₁ o₁ = split_inputs_output d₂ i₂ o₂) ∧
    (∀ (X₁ X₂ : List (List ℚ)) (y₁ y₂ : List String)
        (t₁ t₂ : Option ℚ) (r₁ r₂ : Option Nat),
      X₁ = X₂ → y₁ = y₂ → t₁ = t₂ → r₁ = r₂ →
      split_train_test X₁ y₁ t₁ r₁ = split_train_test X₂ y₂ t₂ r₂) ∧
    (∀ (Xa₁ Xa₂ Xb₁ Xb₂ : List (List ℚ)) (ya₁ ya₂ yb₁ yb₂ : List String),
      Xa₁ = Xa₂ → Xb₁ = Xb₂ → ya₁ = ya₂ → yb₁ = yb₂ →
      preprocess_data Xa₁ Xb₁ ya₁ yb₁ = preprocess_data Xa₂ Xb₂ ya₂ yb₂) ∧
    (∀ (X₁ X₂ : List (List ℚ)) (y₁ y₂ : List String) (h₁ h₂ : Nat × Nat),
      X₁ = X₂ → y₁ = y₂ → h₁ = h₂ →
      train_model X₁ y₁ h₁ = train_model X₂ y₂ h₂) ∧
    (∀ (m₁ m₂ : KNNModel) (Xa₁ Xa₂ Xb₁ Xb₂ : List (List ℚ))
        (ya₁ ya₂ yb₁ yb₂ : List String),
      m₁ = m₂ → Xa₁ = Xa₂ → ya₁ = ya₂ → Xb₁ = Xb₂ → yb₁ = yb₂ →
      evaluate_model m₁ Xa₁ ya₁ Xb₁ yb₁ = evaluate_model m₂ Xa₂ ya₂ Xb₂ yb₂) := by
  refine ⟨?_, ?_, ?_, ?_, ?_, ?_⟩ <;> intros <;> subst_vars <;> rfl

/-- C5 witness: the determinism of `split_train_test` applied at a concrete
one-point dataset. -/
theorem C5_witness :
    ([([1] : List ℚ)] = [[1]]) ∧
    split_train_test [([1] : List ℚ)] ["a"] none none =
      split_train_test [[1]] ["a"] none none :=
  ⟨rfl, C5_units_deterministic.2.2.1 [[1]] [[1]] ["a"] ["a"] none none none none
    rfl rfl rfl rfl⟩

/-- C6: if the `split` unit of the 5-node scenario chain fails and exhausts
all 3 retry attempts, the final state has `split` `Failed`, its transitive
dependents (`scale`, `train`, `evaluate`) `Skipped` and never dispatched,
`split` having consumed its full attempt budget, and the FlowRun `Failed`.
The engine is modelled from the spec (it is not part of the repository's
source). -/
theorem C6_split_exhausts_retries (fsplit : Nat) (h : 3 ≤ fsplit) :
    runGraph chain5 (splitFailureProfile fsplit) (fun _ => 3) =
      [.Completed, .Failed, .Skipped, .Skipped, .Skipped] ∧
    dispatched chain5 (splitFailureProfile fsplit) (fun _ => 3) =
      [true, true, false, false, false] ∧
    attemptsUsed (splitFailureProfile fsplit) (fun _ => 3) 1 = 3 ∧
    flowState (runGraph chain5 (splitFailureProfile fsplit) (fun _ => 3)) =
      .Failed := by
  have hlt : ¬ (fsplit < 3) := Nat.not_lt.mpr h
  refine ⟨?_, ?_, ?_, ?_⟩
  · simp [runGraph, chain5, splitFailureProfile, hlt]
    decide
  · simp [dispatched, runGraph, chain5, splitFailureProfile, hlt]
    decide
  · simp [attemptsUsed, splitFailureProfile]
    omega
  · simp [flowState, runGraph, chain5, splitFailureProfile, hlt]
    decide

/-- C6 witness: the scenario at exactly 3 failed attempts. -/
theorem C6_witness :
    3 ≤ 3 ∧
    flowState (runGraph chain5 (splitFailureProfile 3) (fun _ => 3)) = .Failed :=
  ⟨le_refl 3, (C6_split_exhausts_retries 3 (le_refl 3)).2.2.2⟩

set_option maxRecDepth 100000

/-- C7: for the schedule parsed from the five-field cron expression
`"0 1 * * *"`, the next fire after wall-clock 00:59:00 is 01:00:00 of the
same day, the fire after that one is 01:00:00 of the following day, and
day-of-week field values 0 and 7 match exactly the same days (both Sunday).
The scheduler is modelled from the spec (it is not part of the repository's
source). -/
theorem C7_cron_next_fire :
    parseCron "0 1 * * *" =
      some ⟨.fieldVal 0, .fieldVal 1, .star, .star, .star⟩ ∧
    nextFire ⟨.fieldVal 0, .fieldVal 1, .star, .star, .star⟩ ⟨3, 15, 0, 59, 2⟩ =
      some ⟨3, 15, 1, 0, 2⟩ ∧
    nextFire ⟨.fieldVal 0, .fieldVal 1, .star, .star, .star⟩ ⟨3, 15, 1, 0, 2⟩ =
      some ⟨3, 16, 1, 0, 3⟩ ∧
    (∀ d : Nat, dowMatches (.fieldVal 7) d = dowMatches (.fieldVal 0) d) :=
  ⟨rfl, by decide, by decide, fun _ => rfl⟩

/-- C8: `preprocess_data` returns `y_train` and `y_test` unchanged, scales
`X_test` with exactly the parameters fitted on `X_train`, and its scaled
training output does not depend on `X_test` at all (the scaler is never
fitted on the test set). -/
theorem C8_preprocess_frame :
    ∀ (X_train X_test X_test2 : List (List ℚ)) (y_train y_test : List String),
      (preprocess_data X_train X_test y_train y_test).2.2.1 = y_train ∧
      (preprocess_data X_train X_test y_train y_test).2.2.2 = y_test ∧
      (preprocess_data X_train X_test y_train y_test).2.1 =
        Scaler.transform (MinMaxScaler_fit X_train) X_test ∧
      (preprocess_data X_train X_test y_train y_test).1 =
        (preprocess_data X_train X_test2 y_train y_test).1 :=
  fun _ _ _ _ _ => ⟨rfl, rfl, rfl, rfl⟩

/-- C9: called without explicit `test_size` and `random_state` — as the
demonstrated flow calls it — `split_train_test` partitions `(X, y)` with the
fixed test fraction 1/4 and the fixed seed 0, so the flow's split step is a
pure function of the loaded data and every run of the flow produces the same
train/test partition of the same input. -/
theorem C9_split_defaults :
    (∀ (X : List (List ℚ)) (y : List String),
      split_train_test X y none none = train_test_split X y (1/4) 0) ∧
    (∀ fs : FileSystem, workflow_split fs =
      (workflow_Xy fs).map (fun Xy => train_test_split Xy.1 Xy.2 (1/4) 0)) :=
  ⟨fun _ _ => rfl, fun _ => rfl⟩

/-- C10: the orchestrated flow takes no parameters and binds the constant
data path `"data/iris.csv"`, the four sepal/petal feature columns, the target
column `"Species"` and the hyperparameters `n_neighbors = 3`, `p = 2`,
whereas the un-orchestrated workflow takes the data path as its parameter and
otherwise uses the same bindings. -/
theorem C10_flow_constant_bindings :
    workflow_flow_bindings =
      ⟨"data/iris.csv",
       ["SepalLengthCm", "SepalWidthCm", "PetalLengthCm", "PetalWidthCm"],
       "Species", 3, 2⟩ ∧
    (∀ data_path : String,
      (workflow_plain_bindings data_path).data_path = data_path) ∧
    (∀ data_path : String,
      { workflow_plain_bindings data_path with data_path := DATA_PATH } =
        workflow_flow_bindings) :=
  ⟨rfl, fun _ => rfl, fun _ => rfl⟩

end WorkflowOrch

